import Mathlib

/-!
Verification of the stamp social-media preview generator
(`routes/api/stamp-preview`, the second document of `routes/sitemap.xml.ts`
in this source drop).

The development shallowly embeds the pure/algorithmic core of the pipeline:

* the ImageScript-style 1-based pixel canvas and the integer nearest-neighbor
  upscale loop of `renderRasterPreview` (lines 342-435);
* the base64 cache codec `toBase64` / `fromBase64` (lines 264-281) together
  with a model of the platform `btoa` / `atob` primitives;
* the Redis cache/failure-memoization flow of `handleRedisPreview`
  (lines 1032-1123) with the `FailedRenderSentinel` (lines 249-262);
* the retry loop of `renderWithCloudflare` (lines 139-227);
* the SVG routing decision of `renderSvgPreview` (lines 437-461);
* the deterministic audio waveform generator `renderAudioPreview`
  (lines 800-893), with its JS int32 hash and float-rounded LCG;
* the HTML classifier and first remote-render call of `renderHtmlPreview`
  (lines 584-698);
* the raster dispatch of `renderPreview` (lines 288-340) with the
  Chrome image fallback `renderImageWithChrome` (lines 754-793).

External effects (fetch, Redis, the Cloudflare worker, the resvg engine,
PNG encode/decode) are passed in as explicit oracle parameters; machine
integers are modelled as `Nat`/`Int` with explicit wrapping where the
JavaScript semantics wraps.
-/

namespace StampPreview

/-! ## JS-string helpers

JavaScript strings are modelled as Lean `String`s; substring tests
(`String.prototype.includes`) and the few regular expressions the classifier
uses are implemented over `List Char`.  Code points and UTF-16 units agree on
all the BMP patterns the code searches for.
-/

/-- `subOccurs pat l` is true iff `pat` occurs as a contiguous sublist of `l`
(the semantics of `String.prototype.includes`). -/
def subOccurs (pat : List Char) : List Char → Bool
  | [] => pat.isEmpty
  | c :: rest => pat.isPrefixOf (c :: rest) || subOccurs pat rest

/-- `String.prototype.includes` on Lean strings. -/
def includesStr (s pat : String) : Bool :=
  subOccurs pat.toList s.toList

/-- `mimetype?.startsWith(p)`: optional-chaining `startsWith`, false when the
mimetype is absent (JS `undefined?.startsWith(..)` is falsy). -/
def optStartsWith (mt : Option String) (p : String) : Bool :=
  match mt with
  | none => false
  | some s => p.toList.isPrefixOf s.toList

/-! ## The pixel canvas

`Image` from ImageScript: a fixed-size RGBA canvas with **1-based**
`getPixelAt`/`setPixelAt` coordinates.  Pixels are RGBA words stored as `Nat`.
-/

/-- An ImageScript canvas: dimensions plus a pixel map (1-based coordinates,
`pix x y` is the pixel in column `x`, row `y`). -/
structure Img where
  width : Nat
  height : Nat
  pix : Nat → Nat → Nat

/-- `new Image(w, h)` — fresh canvas (pixels all zero). -/
def Img.new (w h : Nat) : Img := ⟨w, h, fun _ _ => 0⟩

/-- `image.fill(color)`. -/
def Img.fill (img : Img) (color : Nat) : Img :=
  { img with pix := fun _ _ => color }

/-- `image.setPixelAt(x, y, color)` (1-based coordinates). -/
def Img.setPixelAt (img : Img) (x y color : Nat) : Img :=
  { img with pix := fun a b => if a = x ∧ b = y then color else img.pix a b }

theorem setPixelAt_pix (img : Img) (x y c a b : Nat) :
    (img.setPixelAt x y c).pix a b = if a = x ∧ b = y then c else img.pix a b := rfl

/-- `for (let i = 0; i < n; i++) body` over an `Img` accumulator. -/
def forLoop (n : Nat) (f : Nat → Img → Img) (img : Img) : Img :=
  (List.range n).foldl (fun o i => f i o) img

theorem forLoop_zero (f : Nat → Img → Img) (img : Img) : forLoop 0 f img = img := by
  simp [forLoop]

theorem forLoop_succ (n : Nat) (f : Nat → Img → Img) (img : Img) :
    forLoop (n + 1) f img = f n (forLoop n f img) := by
  unfold forLoop
  rw [List.range_succ, List.foldl_append]
  rfl

theorem forLoop_id (n : Nat) (f : Nat → Img → Img) (img : Img)
    (h : ∀ i o, f i o = o) : forLoop n f img = img := by
  induction n with
  | zero => exact forLoop_zero f img
  | succ k ih => rw [forLoop_succ, ih, h]

theorem forLoop_width (n : Nat) (f : Nat → Img → Img) (img : Img)
    (h : ∀ i o, (f i o).width = o.width) : (forLoop n f img).width = img.width := by
  induction n with
  | zero => rw [forLoop_zero]
  | succ k ih => rw [forLoop_succ, h, ih]

theorem forLoop_height (n : Nat) (f : Nat → Img → Img) (img : Img)
    (h : ∀ i o, (f i o).height = o.height) : (forLoop n f img).height = img.height := by
  induction n with
  | zero => rw [forLoop_zero]
  | succ k ih => rw [forLoop_succ, h, ih]

/-! ## C1/C9 — `renderRasterPreview`: the integer nearest-neighbor upscale

Source, lines 371-402:
```
const maxDimension = Math.max(sourceImage.width, sourceImage.height);
const targetSize = 1200;
const rawScale = Math.max(2, Math.floor(targetSize / maxDimension));
const scale = Math.min(rawScale,
  Math.floor(targetSize / sourceImage.width),
  Math.floor(targetSize / sourceImage.height));
const scaledWidth = sourceImage.width * scale;
const scaledHeight = sourceImage.height * scale;
const outputImage = new Image(targetSize, targetSize);
outputImage.fill(0x00000000);
const offsetX = Math.floor((targetSize - scaledWidth) / 2);
const offsetY = Math.floor((targetSize - scaledHeight) / 2);
for (let y = 0; y < sourceImage.height; y++)
  for (let x = 0; x < sourceImage.width; x++) {
    const pixel = sourceImage.getPixelAt(x + 1, y + 1);
    for (let dy = 0; dy < scale; dy++) {
      const py = offsetY + y * scale + dy + 1;
      if (py < 1 || py > targetSize) continue;
      for (let dx = 0; dx < scale; dx++) {
        const px = offsetX + x * scale + dx + 1;
        if (px < 1 || px > targetSize) continue;
        outputImage.setPixelAt(px, py, pixel);
      } } }
```
All quantities are non-negative integers, so JS float arithmetic is exact and
`Math.floor` of the quotients is `Nat` division (dimension 0 never reaches this
code: a decoded image has positive dimensions, which the theorems assume).
-/

def targetSize : Nat := 1200

/-- `scale` of the upscale path (lines 374-379). -/
def upscaleScale (w h : Nat) : Nat :=
  min (max 2 (targetSize / max w h)) (min (targetSize / w) (targetSize / h))

/-- `offsetX` (line 386). -/
def upscaleOffsetX (w h : Nat) : Nat := (targetSize - w * upscaleScale w h) / 2

/-- `offsetY` (line 387). -/
def upscaleOffsetY (w h : Nat) : Nat := (targetSize - h * upscaleScale w h) / 2

/-- The innermost `dx` loop (lines 395-399), with `base = offsetX + x * scale`:
writes `pixel` to columns `base+1 .. base+n` of row `py`, skipping columns
outside the canvas. -/
def dxLoopAux (base py pixel n : Nat) (out : Img) : Img :=
  forLoop n (fun dx out =>
    let px := base + dx + 1
    if px < 1 ∨ px > targetSize then out else out.setPixelAt px py pixel) out

/-- The `dy` loop (lines 392-400), with `xbase = offsetX + x * scale` and
`ybase = offsetY + y * scale`. -/
def dyLoopAux (xbase ybase pixel scale n : Nat) (out : Img) : Img :=
  forLoop n (fun dy out =>
    let py := ybase + dy + 1
    if py < 1 ∨ py > targetSize then out else dxLoopAux xbase py pixel scale out) out

/-- The `x` loop (lines 390-401): one row of source pixels, each replicated
into a `scale × scale` block. -/
def xLoopAux (src : Img) (scale offsetX offsetY y n : Nat) (out : Img) : Img :=
  forLoop n (fun x out =>
    dyLoopAux (offsetX + x * scale) (offsetY + y * scale) (src.pix (x + 1) (y + 1)) scale scale out) out

/-- The `y` loop (lines 389-402). -/
def yLoopAux (src : Img) (scale offsetX offsetY n : Nat) (out : Img) : Img :=
  forLoop n (fun y out => xLoopAux src scale offsetX offsetY y src.width out) out

/-- The whole pixel-copy phase of `renderRasterPreview` applied to the decoded
source image: fresh transparent 1200×1200 canvas (lines 383-384), then the
replication loops. -/
def renderRasterUpscale (src : Img) : Img :=
  yLoopAux src (upscaleScale src.width src.height)
    (upscaleOffsetX src.width src.height) (upscaleOffsetY src.width src.height)
    src.height ((Img.new targetSize targetSize).fill 0)

theorem targetSize_eq : targetSize = 1200 := rfl

/-- Per-cell behavior of the `dx` loop: it writes `pixel` to exactly the cells
`(a, py)` with `base + 1 ≤ a ≤ base + n` that lie on the canvas. -/
theorem dxLoopAux_pix (base py pixel n : Nat) (out : Img) (a b : Nat) :
    (dxLoopAux base py pixel n out).pix a b =
      if b = py ∧ base + 1 ≤ a ∧ a ≤ base + n ∧ a ≤ targetSize then pixel
      else out.pix a b := by
  induction n with
  | zero =>
    rw [dxLoopAux, forLoop_zero]
    have h : ¬ (b = py ∧ base + 1 ≤ a ∧ a ≤ base + 0 ∧ a ≤ targetSize) := by
      rintro ⟨-, h1, h2, -⟩; omega
    rw [if_neg h]
  | succ k ih =>
    have hstep : dxLoopAux base py pixel (k + 1) out =
        (if base + k + 1 < 1 ∨ base + k + 1 > targetSize then dxLoopAux base py pixel k out
         else (dxLoopAux base py pixel k out).setPixelAt (base + k + 1) py pixel) := by
      rw [dxLoopAux, forLoop_succ]
      rfl
    rw [hstep]
    by_cases hbig : base + k + 1 < 1 ∨ base + k + 1 > targetSize
    · rw [if_pos hbig, ih]
      simp only [targetSize_eq] at hbig ⊢
      split_ifs <;> first | rfl | omega
    · rw [if_neg hbig]
      rw [setPixelAt_pix, ih]
      simp only [targetSize_eq] at hbig ⊢
      split_ifs <;> first | rfl | omega

/-- Per-cell behavior of the `dy` loop: `pixel` lands exactly on the rectangle
of rows `ybase + 1 .. ybase + n` and columns `xbase + 1 .. xbase + scale`
clipped to the canvas. -/
theorem dyLoopAux_pix (xbase ybase pixel scale n : Nat) (out : Img) (a b : Nat) :
    (dyLoopAux xbase ybase pixel scale n out).pix a b =
      if (ybase + 1 ≤ b ∧ b ≤ ybase + n ∧ b ≤ targetSize) ∧
         (xbase + 1 ≤ a ∧ a ≤ xbase + scale ∧ a ≤ targetSize) then pixel
      else out.pix a b := by
  induction n with
  | zero =>
    rw [dyLoopAux, forLoop_zero]
    have h : ¬ ((ybase + 1 ≤ b ∧ b ≤ ybase + 0 ∧ b ≤ targetSize) ∧
        (xbase + 1 ≤ a ∧ a ≤ xbase + scale ∧ a ≤ targetSize)) := by
      rintro ⟨⟨h1, h2, -⟩, -⟩; omega
    rw [if_neg h]
  | succ k ih =>
    have hstep : dyLoopAux xbase ybase pixel scale (k + 1) out =
        (if ybase + k + 1 < 1 ∨ ybase + k + 1 > targetSize then dyLoopAux xbase ybase pixel scale k out
         else dxLoopAux xbase (ybase + k + 1) pixel scale (dyLoopAux xbase ybase pixel scale k out)) := by
      rw [dyLoopAux, forLoop_succ]
      rfl
    rw [hstep]
    by_cases hbig : ybase + k + 1 < 1 ∨ ybase + k + 1 > targetSize
    · rw [if_pos hbig, ih]
      simp only [targetSize_eq] at hbig ⊢
      split_ifs <;> first | rfl | omega
    · rw [if_neg hbig]
      rw [dxLoopAux_pix, ih]
      simp only [targetSize_eq] at hbig ⊢
      split_ifs <;> first | rfl | omega

/-- The `x` loop leaves every cell outside its band of rows untouched. -/
theorem xLoopAux_frame (src : Img) (scale offsetX offsetY y n : Nat) (out : Img) (a b : Nat)
    (hb : ¬ (offsetY + y * scale + 1 ≤ b ∧ b ≤ offsetY + y * scale + scale ∧ b ≤ targetSize)) :
    (xLoopAux src scale offsetX offsetY y n out).pix a b = out.pix a b := by
  induction n with
  | zero => rw [xLoopAux, forLoop_zero]
  | succ k ih =>
    have hstep : xLoopAux src scale offsetX offsetY y (k + 1) out =
        dyLoopAux (offsetX + k * scale) (offsetY + y * scale) (src.pix (k + 1) (y + 1)) scale scale
          (xLoopAux src scale offsetX offsetY y k out) := by
      rw [xLoopAux, forLoop_succ]
      rfl
    rw [hstep, dyLoopAux_pix, if_neg (fun h => hb h.1), ih]

/-- After the `x` loop has passed column block `x0`, the cell carries the
source pixel `(x0 + 1, y + 1)`. -/
theorem xLoopAux_hit (src : Img) (scale offsetX offsetY y n : Nat) (out : Img) (a b x0 : Nat)
    (hx0 : x0 < n)
    (ha : offsetX + x0 * scale + 1 ≤ a ∧ a ≤ offsetX + x0 * scale + scale ∧ a ≤ targetSize)
    (hb : offsetY + y * scale + 1 ≤ b ∧ b ≤ offsetY + y * scale + scale ∧ b ≤ targetSize) :
    (xLoopAux src scale offsetX offsetY y n out).pix a b = src.pix (x0 + 1) (y + 1) := by
  induction n with
  | zero => omega
  | succ k ih =>
    have hstep : xLoopAux src scale offsetX offsetY y (k + 1) out =
        dyLoopAux (offsetX + k * scale) (offsetY + y * scale) (src.pix (k + 1) (y + 1)) scale scale
          (xLoopAux src scale offsetX offsetY y k out) := by
      rw [xLoopAux, forLoop_succ]
      rfl
    rw [hstep, dyLoopAux_pix]
    by_cases hx : x0 = k
    · subst hx
      rw [if_pos ⟨hb, ha⟩]
    · have hxk : x0 < k := by omega
      have hdisj : offsetX + x0 * scale + scale ≤ offsetX + k * scale := by
        have h2 : (x0 + 1) * scale ≤ k * scale :=
          Nat.mul_le_mul_right scale (by omega)
        rw [Nat.succ_mul] at h2
        omega
      have hnot : ¬ ((offsetY + y * scale + 1 ≤ b ∧ b ≤ offsetY + y * scale + scale ∧ b ≤ targetSize) ∧
          (offsetX + k * scale + 1 ≤ a ∧ a ≤ offsetX + k * scale + scale ∧ a ≤ targetSize)) := by
        rintro ⟨-, hc1, -, -⟩
        have : a ≤ offsetX + k * scale := le_trans ha.2.1 hdisj
        omega
      rw [if_neg hnot]
      exact ih hxk

/-- After the `y` loop has passed row block `y0` (and column block `x0` inside
it), the cell carries the source pixel `(x0 + 1, y0 + 1)`. -/
theorem yLoopAux_hit (src : Img) (scale offsetX offsetY n : Nat) (out : Img) (a b x0 y0 : Nat)
    (hx0 : x0 < src.width) (hy0 : y0 < n)
    (ha : offsetX + x0 * scale + 1 ≤ a ∧ a ≤ offsetX + x0 * scale + scale ∧ a ≤ targetSize)
    (hb : offsetY + y0 * scale + 1 ≤ b ∧ b ≤ offsetY + y0 * scale + scale ∧ b ≤ targetSize) :
    (yLoopAux src scale offsetX offsetY n out).pix a b = src.pix (x0 + 1) (y0 + 1) := by
  induction n with
  | zero => omega
  | succ k ih =>
    have hstep : yLoopAux src scale offsetX offsetY (k + 1) out =
        xLoopAux src scale offsetX offsetY k src.width (yLoopAux src scale offsetX offsetY k out) := by
      rw [yLoopAux, forLoop_succ]
      rfl
    rw [hstep]
    by_cases hy : y0 = k
    · subst hy
      exact xLoopAux_hit src scale offsetX offsetY y0 src.width _ a b x0 hx0 ha hb
    · have hyk : y0 < k := by omega
      have hdisj : offsetY + y0 * scale + scale ≤ offsetY + k * scale := by
        have h2 : (y0 + 1) * scale ≤ k * scale :=
          Nat.mul_le_mul_right scale (by omega)
        rw [Nat.succ_mul] at h2
        omega
      have hnot : ¬ (offsetY + k * scale + 1 ≤ b ∧ b ≤ offsetY + k * scale + scale ∧ b ≤ targetSize) := by
        rintro ⟨hc1, -, -⟩
        have : b ≤ offsetY + k * scale := le_trans hb.2.1 hdisj
        omega
      rw [xLoopAux_frame src scale offsetX offsetY k src.width _ a b hnot]
      exact ih hyk

theorem dxLoopAux_width (base py pixel n : Nat) (out : Img) :
    (dxLoopAux base py pixel n out).width = out.width := by
  rw [dxLoopAux]
  apply forLoop_width
  intro i o
  dsimp only
  split_ifs <;> rfl

theorem dyLoopAux_width (xbase ybase pixel scale n : Nat) (out : Img) :
    (dyLoopAux xbase ybase pixel scale n out).width = out.width := by
  rw [dyLoopAux]
  apply forLoop_width
  intro i o
  dsimp only
  split_ifs with h
  · rfl
  · exact dxLoopAux_width _ _ _ _ _

theorem renderRasterUpscale_width (src : Img) : (renderRasterUpscale src).width = 1200 := by
  rw [renderRasterUpscale, yLoopAux]
  rw [forLoop_width]
  · rfl
  intro y o
  rw [xLoopAux]
  rw [forLoop_width]
  intro x o'
  exact dyLoopAux_width _ _ _ _ _ _

theorem dxLoopAux_height (base py pixel n : Nat) (out : Img) :
    (dxLoopAux base py pixel n out).height = out.height := by
  rw [dxLoopAux]
  apply forLoop_height
  intro i o
  dsimp only
  split_ifs <;> rfl

theorem dyLoopAux_height (xbase ybase pixel scale n : Nat) (out : Img) :
    (dyLoopAux xbase ybase pixel scale n out).height = out.height := by
  rw [dyLoopAux]
  apply forLoop_height
  intro i o
  dsimp only
  split_ifs with h
  · rfl
  · exact dxLoopAux_height _ _ _ _ _

theorem renderRasterUpscale_height (src : Img) : (renderRasterUpscale src).height = 1200 := by
  rw [renderRasterUpscale, yLoopAux]
  rw [forLoop_height]
  · rfl
  intro y o
  rw [xLoopAux]
  rw [forLoop_height]
  intro x o'
  exact dyLoopAux_height _ _ _ _ _ _

theorem upscaleScale_mul_w_le (w h : Nat) (hw : 0 < w) :
    w * upscaleScale w h ≤ targetSize := by
  have h1 : upscaleScale w h ≤ targetSize / w :=
    le_trans (min_le_right _ _) (min_le_left _ _)
  have h2 := (Nat.le_div_iff_mul_le hw).mp h1
  rw [mul_comm] at h2
  exact h2

theorem upscaleScale_mul_h_le (w h : Nat) (hh : 0 < h) :
    h * upscaleScale w h ≤ targetSize := by
  have h1 : upscaleScale w h ≤ targetSize / h :=
    le_trans (min_le_right _ _) (min_le_right _ _)
  have h2 := (Nat.le_div_iff_mul_le hh).mp h1
  rw [mul_comm] at h2
  exact h2

theorem upscaleScale_maximal (w h s : Nat) (hw : 0 < w) (hh : 0 < h)
    (h1 : s ≤ max 2 (targetSize / max w h)) (h2 : s * w ≤ targetSize) (h3 : s * h ≤ targetSize) :
    s ≤ upscaleScale w h := by
  refine le_min h1 (le_min ?_ ?_)
  · exact (Nat.le_div_iff_mul_le hw).mpr h2
  · exact (Nat.le_div_iff_mul_le hh).mpr h3

/-- Linear-arithmetic core of the in-canvas bound for replicated pixels. -/
theorem upscaleInCanvas (wTimesS xTimesS s dx : Nat)
    (h1 : xTimesS + s ≤ wTimesS) (h2 : wTimesS ≤ 1200) (hdx : dx < s) :
    (1200 - wTimesS) / 2 + xTimesS + dx + 1 ≤ 1200 := by omega

/-- **C1**: for every decoded raster source (positive dimensions) processed by
the integer-upscale path of `renderRasterPreview`, the output canvas is exactly
1200×1200; the scale factor is `max 2 (floor (1200 / max w h))` clamped to the
largest value with `scale*w ≤ 1200` and `scale*h ≤ 1200`; the offsets are
`floor ((1200 - scale*dim) / 2)`; and each source pixel `(x, y)` (0-based; the
canvas coordinates are ImageScript's 1-based ones) is replicated unchanged into
the `scale × scale` block at `(offsetX + x*scale, offsetY + y*scale)` —
nearest-neighbor replication, no interpolation. -/
theorem raster_upscale_spec (src : Img) (hw : 0 < src.width) (hh : 0 < src.height) :
    (renderRasterUpscale src).width = 1200 ∧
    (renderRasterUpscale src).height = 1200 ∧
    (upscaleScale src.width src.height ≤ max 2 (1200 / max src.width src.height) ∧
      upscaleScale src.width src.height * src.width ≤ 1200 ∧
      upscaleScale src.width src.height * src.height ≤ 1200 ∧
      ∀ s, s ≤ max 2 (1200 / max src.width src.height) →
        s * src.width ≤ 1200 → s * src.height ≤ 1200 →
        s ≤ upscaleScale src.width src.height) ∧
    upscaleOffsetX src.width src.height
      = (1200 - upscaleScale src.width src.height * src.width) / 2 ∧
    upscaleOffsetY src.width src.height
      = (1200 - upscaleScale src.width src.height * src.height) / 2 ∧
    ∀ x y dx dy, x < src.width → y < src.height →
      dx < upscaleScale src.width src.height → dy < upscaleScale src.width src.height →
      (renderRasterUpscale src).pix
          (upscaleOffsetX src.width src.height + x * upscaleScale src.width src.height + dx + 1)
          (upscaleOffsetY src.width src.height + y * upscaleScale src.width src.height + dy + 1)
        = src.pix (x + 1) (y + 1) := by
  have hts : targetSize = 1200 := rfl
  refine ⟨renderRasterUpscale_width src, renderRasterUpscale_height src, ?_, ?_, ?_, ?_⟩
  · refine ⟨min_le_left _ _, ?_, ?_, ?_⟩
    · rw [mul_comm]
      exact hts ▸ upscaleScale_mul_w_le src.width src.height hw
    · rw [mul_comm]
      exact hts ▸ upscaleScale_mul_h_le src.width src.height hh
    · intro s h1 h2 h3
      exact upscaleScale_maximal src.width src.height s hw hh
        (by rw [targetSize_eq]; exact h1) (by rw [targetSize_eq]; exact h2)
        (by rw [targetSize_eq]; exact h3)
  · rw [upscaleOffsetX, mul_comm, hts]
  · rw [upscaleOffsetY, mul_comm, hts]
  · intro x y dx dy hx hy hdx hdy
    have hws : src.width * upscaleScale src.width src.height ≤ 1200 :=
      hts ▸ upscaleScale_mul_w_le src.width src.height hw
    have hhs : src.height * upscaleScale src.width src.height ≤ 1200 :=
      hts ▸ upscaleScale_mul_h_le src.width src.height hh
    have hxs : x * upscaleScale src.width src.height + upscaleScale src.width src.height
        ≤ src.width * upscaleScale src.width src.height := by
      have h2 : (x + 1) * upscaleScale src.width src.height
          ≤ src.width * upscaleScale src.width src.height :=
        Nat.mul_le_mul_right _ (by omega)
      rw [Nat.succ_mul] at h2
      exact h2
    have hys : y * upscaleScale src.width src.height + upscaleScale src.width src.height
        ≤ src.height * upscaleScale src.width src.height := by
      have h2 : (y + 1) * upscaleScale src.width src.height
          ≤ src.height * upscaleScale src.width src.height :=
        Nat.mul_le_mul_right _ (by omega)
      rw [Nat.succ_mul] at h2
      exact h2
    have hax : upscaleOffsetX src.width src.height
          + x * upscaleScale src.width src.height + dx + 1 ≤ 1200 := by
      have := upscaleInCanvas (src.width * upscaleScale src.width src.height)
        (x * upscaleScale src.width src.height) (upscaleScale src.width src.height) dx hxs hws hdx
      rw [upscaleOffsetX, hts]
      omega
    have hay : upscaleOffsetY src.width src.height
          + y * upscaleScale src.width src.height + dy + 1 ≤ 1200 := by
      have := upscaleInCanvas (src.height * upscaleScale src.width src.height)
        (y * upscaleScale src.width src.height) (upscaleScale src.width src.height) dy hys hhs hdy
      rw [upscaleOffsetY, hts]
      omega
    rw [renderRasterUpscale]
    exact yLoopAux_hit src (upscaleScale src.width src.height)
      (upscaleOffsetX src.width src.height) (upscaleOffsetY src.width src.height)
      src.height _ _ _ x y hx hy
      ⟨by omega, by omega, by rw [hts]; omega⟩
      ⟨by omega, by omega, by rw [hts]; omega⟩

/-- Concrete source image used by the C1 witness (3×2, distinct pixel values). -/
def srcSample : Img := ⟨3, 2, fun a b => a * 10 + b⟩

/-- Witness for `raster_upscale_spec` at the concrete 3×2 source: the
hypotheses hold and the replication equation holds at pixel (0, 0), block
offset (5, 7) — scale is 400 there. -/
theorem raster_upscale_spec_witness :
    (0 < srcSample.width ∧ 0 < srcSample.height) ∧
      (renderRasterUpscale srcSample).width = 1200 ∧
      upscaleScale srcSample.width srcSample.height = 400 ∧
      (renderRasterUpscale srcSample).pix
          (upscaleOffsetX srcSample.width srcSample.height + 0 * 400 + 5 + 1)
          (upscaleOffsetY srcSample.width srcSample.height + 0 * 400 + 7 + 1)
        = srcSample.pix 1 1 := by
  have h := raster_upscale_spec srcSample (by decide) (by decide)
  have hscale : upscaleScale srcSample.width srcSample.height = 400 := by decide
  refine ⟨⟨by decide, by decide⟩, h.1, hscale, ?_⟩
  have := h.2.2.2.2.2 0 0 5 7 (by decide) (by decide) (by rw [hscale]; omega) (by rw [hscale]; omega)
  rw [hscale] at this
  exact this

theorem renderRasterUpscale_scale_zero (src : Img)
    (h0 : upscaleScale src.width src.height = 0) :
    renderRasterUpscale src = (Img.new targetSize targetSize).fill 0 := by
  rw [renderRasterUpscale, h0, yLoopAux]
  apply forLoop_id
  intro y o
  rw [xLoopAux]
  apply forLoop_id
  intro x o'
  rw [dyLoopAux, forLoop_zero]

/-- **C9**: edge cases of the upscale arithmetic — a source whose larger
dimension `d` has `600 < d ≤ 1200` gets clamped scale 1 (the nominal minimum
of 2 is not achieved), and a source with `d > 1200` gets scale 0, so the copy
loop writes nothing and the artifact is the untouched fully transparent
1200×1200 canvas. -/
theorem raster_upscale_edge_cases (src : Img) (hw : 0 < src.width) (hh : 0 < src.height) :
    (600 < max src.width src.height → max src.width src.height ≤ 1200 →
      upscaleScale src.width src.height = 1) ∧
    (1200 < max src.width src.height →
      upscaleScale src.width src.height = 0 ∧
      renderRasterUpscale src = (Img.new 1200 1200).fill 0) := by
  constructor
  · intro h600 h1200
    have hqw1 : 1 ≤ targetSize / src.width := by
      refine (Nat.le_div_iff_mul_le hw).mpr ?_
      have := le_max_left src.width src.height
      rw [targetSize_eq]; omega
    have hqh1 : 1 ≤ targetSize / src.height := by
      refine (Nat.le_div_iff_mul_le hh).mpr ?_
      have := le_max_right src.width src.height
      rw [targetSize_eq]; omega
    have hdmax : targetSize / max src.width src.height = 1 := by
      apply Nat.div_eq_of_lt_le
      · rw [targetSize_eq]; omega
      · rw [targetSize_eq]; omega
    have hminq : min (targetSize / src.width) (targetSize / src.height) = 1 := by
      rcases le_total src.width src.height with hwh | hwh
      · have h' : targetSize / src.height = 1 := by
          rw [max_eq_right hwh] at hdmax; exact hdmax
        rw [h']
        exact min_eq_right hqw1
      · have h' : targetSize / src.width = 1 := by
          rw [max_eq_left hwh] at hdmax; exact hdmax
        rw [h']
        exact min_eq_left hqh1
    rw [upscaleScale, hdmax, hminq]
    decide
  · intro h1200
    have hdmax : targetSize / max src.width src.height = 0 := by
      apply Nat.div_eq_of_lt
      rw [targetSize_eq]; omega
    have hminq : min (targetSize / src.width) (targetSize / src.height) = 0 := by
      rcases le_total src.width src.height with hwh | hwh
      · have h' : targetSize / src.height = 0 := by
          rw [max_eq_right hwh] at hdmax; exact hdmax
        rw [h']
        exact min_eq_right (Nat.zero_le _)
      · have h' : targetSize / src.width = 0 := by
          rw [max_eq_left hwh] at hdmax; exact hdmax
        rw [h']
        exact min_eq_left (Nat.zero_le _)
    have hz : upscaleScale src.width src.height = 0 := by
      rw [upscaleScale, hminq]
      exact min_eq_right (Nat.zero_le _)
    exact ⟨hz, renderRasterUpscale_scale_zero src hz⟩

/-- Concrete source images used by the C9 witness. -/
def srcMid : Img := ⟨700, 700, fun a b => a + b⟩

def srcBig : Img := ⟨1300, 10, fun a b => a + b⟩

/-- Witness for `raster_upscale_edge_cases`: a 700×700 source gets scale 1; a
1300×10 source gets scale 0 and the fully transparent canvas. -/
theorem raster_upscale_edge_cases_witness :
    upscaleScale srcMid.width srcMid.height = 1 ∧
      upscaleScale srcBig.width srcBig.height = 0 ∧
      renderRasterUpscale srcBig = (Img.new 1200 1200).fill 0 := by
  have h1 := (raster_upscale_edge_cases srcMid (by decide) (by decide)).1 (by decide) (by decide)
  have h2 := (raster_upscale_edge_cases srcBig (by decide) (by decide)).2 (by decide)
  exact ⟨h1, h2.1, h2.2⟩

/-! ## C10 — the cache codec `toBase64` / `fromBase64` (lines 264-281)

JS strings are represented by their code-unit sequences (`List Nat`).  `btoa`
and `atob` are platform primitives, modelled here by the standard base64
encoding/decoding of a byte string; `atob` returning `none` models the
`InvalidCharacterError` it throws on invalid input.
-/

def b64Alphabet : List Nat :=
  "ABCDEFGHIJKLMNOPQRSTUVWXYZabcdefghijklmnopqrstuvwxyz0123456789+/".toList.map Char.toNat

/-- Code unit of the `i`-th base64 digit. -/
def b64Code (i : Nat) : Nat := b64Alphabet.getD i 0

def idxOf (c : Nat) : List Nat → Option Nat
  | [] => none
  | x :: xs => if x = c then some 0 else (idxOf c xs).map (fun n => n + 1)

/-- Digit value of a base64 code unit, `none` for a non-alphabet character. -/
def b64Index (c : Nat) : Option Nat := idxOf c b64Alphabet

/-- Model of the platform `btoa`: base64-encode a binary string (code units
must be < 256, which holds for the strings `toBase64` builds from a
`Uint8Array`).  61 is the code unit of the padding character. -/
def btoaM : List Nat → List Nat
  | [] => []
  | [b0] => [b64Code (b0 / 4), b64Code (b0 % 4 * 16), 61, 61]
  | [b0, b1] => [b64Code (b0 / 4), b64Code (b0 % 4 * 16 + b1 / 16), b64Code (b1 % 16 * 4), 61]
  | b0 :: b1 :: b2 :: rest =>
      b64Code (b0 / 4) :: b64Code (b0 % 4 * 16 + b1 / 16) ::
        b64Code (b1 % 16 * 4 + b2 / 64) :: b64Code (b2 % 64) :: btoaM rest

/-- Model of the platform `atob`: decode base64 groups of four code units,
with `=`-padding allowed only at the very end; `none` models the thrown
`InvalidCharacterError` (leftover bits of a padded group are discarded, as in
the WHATWG forgiving-base64 decode). -/
def atobM : List Nat → Option (List Nat)
  | [] => some []
  | c0 :: c1 :: c2 :: c3 :: rest =>
    (b64Index c0).bind (fun i0 =>
      (b64Index c1).bind (fun i1 =>
        if c2 = 61 then
          if c3 = 61 ∧ rest = [] then some [i0 * 4 + i1 / 16] else none
        else
          (b64Index c2).bind (fun i2 =>
            if c3 = 61 then
              if rest = [] then some [i0 * 4 + i1 / 16, i1 % 16 * 16 + i2 / 4] else none
            else
              (b64Index c3).bind (fun i3 =>
                (atobM rest).map (fun tail =>
                  (i0 * 4 + i1 / 16) :: (i1 % 16 * 16 + i2 / 4) :: (i2 % 4 * 64 + i3) :: tail)))))
  | _ => none

/-- `toBase64` (lines 265-271): build the binary string code unit by code unit
(`String.fromCharCode` of a byte is that byte), then `btoa`. -/
def toBase64M (data : List Nat) : List Nat :=
  btoaM (data.foldl (fun binary b => binary ++ [b]) [])

/-- `fromBase64` (lines 274-281): `atob`, then read the code units back into
bytes — `charCodeAt` over the decoded binary string is the identity on its
code-unit list. -/
def fromBase64M (b64 : List Nat) : Option (List Nat) := atobM b64

theorem foldl_append_singleton (l acc : List Nat) :
    l.foldl (fun binary b => binary ++ [b]) acc = acc ++ l := by
  induction l generalizing acc with
  | nil => simp
  | cons x xs ih => simp [List.foldl, ih]

/-- The base64 digit table round-trips, and no digit is the padding char. -/
theorem b64Index_code : ∀ i, i < 64 → b64Index (b64Code i) = some i ∧ b64Code i ≠ 61 := by
  decide

theorem atobM_btoaM : ∀ (fuel : Nat) (data : List Nat), data.length ≤ fuel →
    (∀ b ∈ data, b < 256) → atobM (btoaM data) = some data := by
  intro fuel
  induction fuel with
  | zero =>
    intro data hlen _
    have hnil : data = [] := List.eq_nil_of_length_eq_zero (Nat.le_zero.mp hlen)
    subst hnil
    rfl
  | succ k ih =>
    intro data hlen hlt
    rcases data with - | ⟨b0, - | ⟨b1, - | ⟨b2, rest⟩⟩⟩
    · rfl
    · have hb0 : b0 < 256 := hlt b0 (by simp)
      have h0 := b64Index_code (b0 / 4) (by omega)
      have h1 := b64Index_code (b0 % 4 * 16) (by omega)
      rw [btoaM, atobM]
      simp only [h0.1, h1.1, Option.some_bind, and_self, ite_true,
        Option.some.injEq, List.cons.injEq, and_true]
      omega
    · have hb0 : b0 < 256 := hlt b0 (by simp)
      have hb1 : b1 < 256 := hlt b1 (by simp)
      have h0 := b64Index_code (b0 / 4) (by omega)
      have h1 := b64Index_code (b0 % 4 * 16 + b1 / 16) (by omega)
      have h2 := b64Index_code (b1 % 16 * 4) (by omega)
      rw [btoaM, atobM]
      simp only [h0.1, h1.1, h2.1, Option.some_bind]
      rw [if_neg h2.2]
      simp only [Option.some_bind, ite_true, Option.some.injEq, List.cons.injEq, and_true]
      constructor <;> omega
    · have hb0 : b0 < 256 := hlt b0 (by simp)
      have hb1 : b1 < 256 := hlt b1 (by simp)
      have hb2 : b2 < 256 := hlt b2 (by simp)
      have h0 := b64Index_code (b0 / 4) (by omega)
      have h1 := b64Index_code (b0 % 4 * 16 + b1 / 16) (by omega)
      have h2 := b64Index_code (b1 % 16 * 4 + b2 / 64) (by omega)
      have h3 := b64Index_code (b2 % 64) (by omega)
      have hrest : atobM (btoaM rest) = some rest := by
        refine ih rest ?_ (fun b hb => hlt b (by simp [hb]))
        simp only [List.length_cons] at hlen
        omega
      rw [btoaM, atobM]
      simp only [h0.1, h1.1, h2.1, h3.1, hrest, Option.some_bind]
      rw [if_neg h2.2, if_neg h3.2]
      simp only [Option.some_bind, Option.map_some', Option.some.injEq, List.cons.injEq]
      refine ⟨by omega, by omega, by omega, trivial⟩

/-- **C10**: the cache codec round-trips — for every byte array `b` (elements
< 256, as `Uint8Array` guarantees), `fromBase64 (toBase64 b) = b`, so cached
PNG bytes are served back byte-identical. -/
theorem base64_roundtrip (data : List Nat) (h : ∀ b ∈ data, b < 256) :
    fromBase64M (toBase64M data) = some data := by
  rw [toBase64M, foldl_append_singleton, List.nil_append, fromBase64M]
  exact atobM_btoaM data.length data le_rfl h

/-- Witness for `base64_roundtrip` on a concrete 5-byte array. -/
theorem base64_roundtrip_witness :
    (∀ b ∈ [0, 1, 77, 255, 254], b < 256) ∧
      fromBase64M (toBase64M [0, 1, 77, 255, 254]) = some [0, 1, 77, 255, 254] :=
  ⟨by decide, base64_roundtrip [0, 1, 77, 255, 254] (by decide)⟩

/-! ## C2 — `handleRedisPreview` (lines 1032-1123) and the failure sentinel

The Redis store is modelled by the `Option CacheEntryM` slot for the one key
`preview:{stamp}`; `dbManager.handleCache` is: return the entry on hit, run
the factory and store its value on miss.  The outcome of `renderPreview` for
this identifier is the oracle `renderResult`; `renders` counts how many times
it is invoked (each invocation is one full fetch+render attempt).  `Date.now()`
is the parameter `now` (milliseconds).
-/

/-- `CachedPreview` (lines 243-246): base64 PNG (as JS code units) plus
metadata headers. -/
structure CachedPreviewM where
  png : List Nat
  meta : List (String × String)
deriving DecidableEq

/-- A cache slot value: a rendered preview or a `FailedRenderSentinel`
(lines 249-252). -/
inductive CacheEntryM
  | preview (p : CachedPreviewM)
  | failed (timestamp : Nat)
deriving DecidableEq

/-- The observable response of `handleRedisPreview`: a 302 redirect to the
fallback logo (tagged with its `X-Fallback` reason) or a binary PNG response
(tagged with its `X-Cache` value). -/
inductive PreviewResponse
  | fallbackRedirect (xFallback : String)
  | binary (bytes : Option (List Nat)) (xCache : String)
deriving DecidableEq

structure RedisOutcome where
  response : PreviewResponse
  finalCache : Option CacheEntryM
  renders : Nat
deriving DecidableEq

/-- `FAILED_RENDER_TTL` (line 262), in seconds. -/
def failedRenderTTL : Nat := 3600

/-- Lines 1059-1122: handling of the value read (or just produced) by
`handleCache` — sentinel freshness check, expired-sentinel re-render,
preview serving. -/
def processCachedEntry (renderResult : Option CachedPreviewM) (now : Nat)
    (cached : CacheEntryM) (store : Option CacheEntryM) (renders : Nat)
    (wasRendered : Bool) : RedisOutcome :=
  match cached with
  | .failed ts =>
    if now - ts < failedRenderTTL * 1000 then
      { response := .fallbackRedirect "cached-render-failure",
        finalCache := store, renders := renders }
    else
      match renderResult with
      | some fresh =>
        if fresh.png.isEmpty then
          { response := .fallbackRedirect "render-failed-retry",
            finalCache := some (.failed now), renders := renders + 1 }
        else
          { response := .binary (fromBase64M fresh.png) "retry-after-failure",
            finalCache := some (.preview fresh), renders := renders + 1 }
      | none =>
        { response := .fallbackRedirect "render-failed-retry",
          finalCache := some (.failed now), renders := renders + 1 }
  | .preview p =>
    if p.png.isEmpty then
      { response := .fallbackRedirect "render-failed-or-unsupported",
        finalCache := store, renders := renders }
    else
      { response := .binary (fromBase64M p.png)
          (if wasRendered then "rendered" else "redis-hit"),
        finalCache := store, renders := renders }

/-- `handleRedisPreview` (lines 1032-1123): forced-refresh invalidation, then
`handleCache` (hit, or miss running `renderPreview` and storing either the
preview or a fresh failure sentinel), then `processCachedEntry`. -/
def handleRedisPreviewM (renderResult : Option CachedPreviewM) (now : Nat)
    (forceRefresh : Bool) (cache0 : Option CacheEntryM) : RedisOutcome :=
  let cacheA := if forceRefresh then none else cache0
  match cacheA with
  | some cached => processCachedEntry renderResult now cached cacheA 0 false
  | none =>
    let entry : CacheEntryM :=
      match renderResult with
      | some r => .preview r
      | none => .failed now
    processCachedEntry renderResult now entry (some entry) 1 true

/-- **C2**: with a failure marker in the cache, a request (no forced refresh)
younger than 3600 s short-circuits to the fallback redirect with no render
attempt and leaves the marker in place; once the marker is 3600 s old or
older, exactly one fresh render attempt is made and its outcome — the new
artifact or a new failure marker — is persisted. -/
theorem failure_marker_semantics (renderResult : Option CachedPreviewM) (now ts : Nat) :
    (now - ts < 3600 * 1000 →
      (handleRedisPreviewM renderResult now false (some (.failed ts))).response
          = .fallbackRedirect "cached-render-failure" ∧
        (handleRedisPreviewM renderResult now false (some (.failed ts))).renders = 0 ∧
        (handleRedisPreviewM renderResult now false (some (.failed ts))).finalCache
          = some (.failed ts)) ∧
    (3600 * 1000 ≤ now - ts →
      (handleRedisPreviewM renderResult now false (some (.failed ts))).renders = 1 ∧
      (∀ fresh, renderResult = some fresh → fresh.png.isEmpty = false →
        (handleRedisPreviewM renderResult now false (some (.failed ts))).finalCache
            = some (.preview fresh) ∧
          (handleRedisPreviewM renderResult now false (some (.failed ts))).response
            = .binary (fromBase64M fresh.png) "retry-after-failure") ∧
      (renderResult = none →
        (handleRedisPreviewM renderResult now false (some (.failed ts))).finalCache
            = some (.failed now) ∧
          (handleRedisPreviewM renderResult now false (some (.failed ts))).response
            = .fallbackRedirect "render-failed-retry")) := by
  constructor
  · intro hage
    have hlt : now - ts < failedRenderTTL * 1000 := by
      simp only [failedRenderTTL]
      omega
    simp [handleRedisPreviewM, processCachedEntry, hlt]
  · intro hage
    have hge : ¬ (now - ts < failedRenderTTL * 1000) := by
      simp only [failedRenderTTL]
      omega
    refine ⟨?_, ?_, ?_⟩
    · rcases renderResult with - | fresh
      · simp [handleRedisPreviewM, processCachedEntry, hge]
      · by_cases hpng : fresh.png.isEmpty <;>
          simp [handleRedisPreviewM, processCachedEntry, hge, hpng]
    · intro fresh hfresh hpng
      subst hfresh
      simp [handleRedisPreviewM, processCachedEntry, hge, hpng]
    · intro hnone
      subst hnone
      simp [handleRedisPreviewM, processCachedEntry, hge]

/-- Witness for `failure_marker_semantics`: a 500 ms old marker short-circuits
(no render); a marker from time 0 read at 10 000 000 ms triggers exactly one
render. -/
theorem failure_marker_semantics_witness :
    ((1000 : Nat) - 500 < 3600 * 1000 ∧
      (handleRedisPreviewM none 1000 false (some (.failed 500))).renders = 0) ∧
    ((3600 : Nat) * 1000 ≤ 10000000 - 0 ∧
      (handleRedisPreviewM none 10000000 false (some (.failed 0))).renders = 1) := by
  constructor
  · exact ⟨by decide, ((failure_marker_semantics none 1000 500).1 (by decide)).2.1⟩
  · exact ⟨by decide, ((failure_marker_semantics none 10000000 0).2 (by decide)).1⟩

/-! ## C3 — `renderWithCloudflare` retry policy (lines 139-227)

One `fetch` to the worker is summarized by a `FetchOutcome`; the per-attempt
outcomes are given by an oracle indexed by attempt number.  The loop is run on
fuel `maxRetries + 1 - attempt`, mirroring `for (attempt = 0; attempt <=
maxRetries; attempt++)`.  `CfResult` records the returned value, the number of
fetches made and the backoff delays slept (in order).
-/

/-- Outcome of one `fetch` inside the retry loop: `response.ok` with the PNG
bytes, a non-ok response with its status, or a thrown error with its `name`
and `message`. -/
inductive FetchOutcome
  | success (bytes : List Nat)
  | httpError (status : Nat)
  | thrown (name msg : String)

/-- Lines 200-202: `msg.toLowerCase().includes("abort") || errName ===
"AbortError" || errName === "TimeoutError"` (character-wise lowering; the
matched pattern is ASCII). -/
def isAbortErr (name msg : String) : Bool :=
  subOccurs "abort".toList (msg.toList.map Char.toLower) ||
    name == "AbortError" || name == "TimeoutError"

/-- Lines 203-207: retry only non-abort errors whose message looks like a
transport-level network failure. -/
def isRetryableErr (name msg : String) : Bool :=
  !isAbortErr name msg &&
    (includesStr msg "network" || includesStr msg "ECONNREFUSED" ||
      includesStr msg "ETIMEDOUT")

/-- `maxRetries` (line 151). -/
def maxRetries : Nat := 2

/-- `retryDelays` (line 152). -/
def retryDelays : List Nat := [2000, 4000]

structure CfResult where
  result : Option (List Nat)
  attempts : Nat
  delays : List Nat
deriving DecidableEq

/-- The retry loop of lines 154-224, on fuel. -/
def cfLoop (oracle : Nat → FetchOutcome) : Nat → Nat → CfResult
  | 0, _ => { result := none, attempts := 0, delays := [] }
  | fuel + 1, attempt =>
    match oracle attempt with
    | .success bytes => { result := some bytes, attempts := 1, delays := [] }
    | .httpError status =>
      if 500 ≤ status ∧ attempt < maxRetries then
        { result := (cfLoop oracle fuel (attempt + 1)).result,
          attempts := (cfLoop oracle fuel (attempt + 1)).attempts + 1,
          delays := retryDelays.getD attempt 0 :: (cfLoop oracle fuel (attempt + 1)).delays }
      else
        { result := none, attempts := 1, delays := [] }
    | .thrown name msg =>
      if isRetryableErr name msg ∧ attempt < maxRetries then
        { result := (cfLoop oracle fuel (attempt + 1)).result,
          attempts := (cfLoop oracle fuel (attempt + 1)).attempts + 1,
          delays := retryDelays.getD attempt 0 :: (cfLoop oracle fuel (attempt + 1)).delays }
      else
        { result := none, attempts := 1, delays := [] }

/-- `renderWithCloudflare`'s attempt loop, started at attempt 0. -/
def renderWithCloudflareM (oracle : Nat → FetchOutcome) : CfResult :=
  cfLoop oracle (maxRetries + 1) 0

theorem cfLoop_succ_success (oracle : Nat → FetchOutcome) (fuel attempt : Nat)
    (bytes : List Nat) (h : oracle attempt = .success bytes) :
    cfLoop oracle (fuel + 1) attempt = { result := some bytes, attempts := 1, delays := [] } := by
  rw [cfLoop, h]

theorem cfLoop_succ_http (oracle : Nat → FetchOutcome) (fuel attempt s : Nat)
    (h : oracle attempt = .httpError s) :
    cfLoop oracle (fuel + 1) attempt =
      if 500 ≤ s ∧ attempt < maxRetries then
        { result := (cfLoop oracle fuel (attempt + 1)).result,
          attempts := (cfLoop oracle fuel (attempt + 1)).attempts + 1,
          delays := retryDelays.getD attempt 0 :: (cfLoop oracle fuel (attempt + 1)).delays }
      else
        { result := none, attempts := 1, delays := [] } := by
  rw [cfLoop, h]

theorem cfLoop_succ_thrown (oracle : Nat → FetchOutcome) (fuel attempt : Nat) (n m : String)
    (h : oracle attempt = .thrown n m) :
    cfLoop oracle (fuel + 1) attempt =
      if isRetryableErr n m ∧ attempt < maxRetries then
        { result := (cfLoop oracle fuel (attempt + 1)).result,
          attempts := (cfLoop oracle fuel (attempt + 1)).attempts + 1,
          delays := retryDelays.getD attempt 0 :: (cfLoop oracle fuel (attempt + 1)).delays }
      else
        { result := none, attempts := 1, delays := [] } := by
  rw [cfLoop, h]

theorem cfLoop_attempts_le (oracle : Nat → FetchOutcome) :
    ∀ fuel attempt, (cfLoop oracle fuel attempt).attempts ≤ fuel := by
  intro fuel
  induction fuel with
  | zero => intro attempt; exact Nat.le.refl
  | succ k ih =>
    intro attempt
    cases h : oracle attempt with
    | success bytes =>
      rw [cfLoop_succ_success oracle k attempt bytes h]
      exact Nat.succ_le_succ (Nat.zero_le k)
    | httpError s =>
      rw [cfLoop_succ_http oracle k attempt s h]
      split_ifs
      · show (cfLoop oracle k (attempt + 1)).attempts + 1 ≤ k + 1
        exact Nat.succ_le_succ (ih (attempt + 1))
      · exact Nat.succ_le_succ (Nat.zero_le k)
    | thrown n m =>
      rw [cfLoop_succ_thrown oracle k attempt n m h]
      split_ifs
      · show (cfLoop oracle k (attempt + 1)).attempts + 1 ≤ k + 1
        exact Nat.succ_le_succ (ih (attempt + 1))
      · exact Nat.succ_le_succ (Nat.zero_le k)

/-- An attempt outcome that the loop of lines 154-224 responds to with a
retry (when attempts remain): a ≥500 response (line 179) or a retryable
transport error (line 209). -/
def retriedOutcome : FetchOutcome → Prop
  | .success _ => False
  | .httpError s => 500 ≤ s
  | .thrown n m => isRetryableErr n m = true

/-- The loop stops immediately (no retry, failure returned) on a sub-500
non-ok response, at any attempt. -/
theorem cfLoop_stop_http (oracle : Nat → FetchOutcome) (fuel attempt s : Nat)
    (h : oracle attempt = .httpError s) (hs : s < 500) :
    cfLoop oracle (fuel + 1) attempt = { result := none, attempts := 1, delays := [] } := by
  rw [cfLoop_succ_http oracle fuel attempt s h, if_neg]
  rintro ⟨hge, -⟩
  omega

/-- The loop stops immediately (no retry, failure returned) on an
abort/timeout error, at any attempt. -/
theorem cfLoop_stop_abort (oracle : Nat → FetchOutcome) (fuel attempt : Nat) (n m : String)
    (h : oracle attempt = .thrown n m) (hab : isAbortErr n m = true) :
    cfLoop oracle (fuel + 1) attempt = { result := none, attempts := 1, delays := [] } := by
  rw [cfLoop_succ_thrown oracle fuel attempt n m h, if_neg]
  rintro ⟨hretry, -⟩
  rw [isRetryableErr, hab] at hretry
  simp at hretry

/-- A retried outcome with attempts remaining: sleep the backoff delay and
recurse at the next attempt, counting one more fetch. -/
theorem cfLoop_retry_step (oracle : Nat → FetchOutcome) (fuel attempt : Nat)
    (hatt : attempt < maxRetries) (hret : retriedOutcome (oracle attempt)) :
    cfLoop oracle (fuel + 1) attempt =
      { result := (cfLoop oracle fuel (attempt + 1)).result,
        attempts := (cfLoop oracle fuel (attempt + 1)).attempts + 1,
        delays := retryDelays.getD attempt 0 :: (cfLoop oracle fuel (attempt + 1)).delays } := by
  cases h : oracle attempt with
  | success bytes =>
    rw [h] at hret
    exact absurd hret (fun hf => hf)
  | httpError s =>
    rw [h] at hret
    rw [cfLoop_succ_http oracle fuel attempt s h, if_pos ⟨hret, hatt⟩]
  | thrown n m =>
    rw [h] at hret
    rw [cfLoop_succ_thrown oracle fuel attempt n m h, if_pos ⟨hret, hatt⟩]

/-- **C3**: the remote-renderer client makes at most 3 attempts; with a
persistent ≥500 response, or a persistent retryable transport error, it makes
exactly 3 attempts (2 retries) sleeping 2000 ms then 4000 ms and returns
failure; and a 4xx response or an abort/timeout error is never retried — at
whatever (reachable) attempt `k` it occurs, after `k` retried outcomes, the
call returns failure right after that outcome: `k + 1` fetches and only the
`k` backoff delays already slept. -/
theorem cf_retry_policy :
    (∀ oracle : Nat → FetchOutcome, (renderWithCloudflareM oracle).attempts ≤ 3) ∧
    (∀ oracle : Nat → FetchOutcome,
      (∀ i, ∃ s, oracle i = .httpError s ∧ 500 ≤ s) →
      renderWithCloudflareM oracle = { result := none, attempts := 3, delays := [2000, 4000] }) ∧
    (∀ oracle : Nat → FetchOutcome,
      (∀ i, ∃ n m, oracle i = .thrown n m ∧ isRetryableErr n m = true) →
      renderWithCloudflareM oracle = { result := none, attempts := 3, delays := [2000, 4000] }) ∧
    (∀ (oracle : Nat → FetchOutcome) (k s : Nat), oracle k = .httpError s →
      400 ≤ s → s < 500 → k ≤ maxRetries → (∀ i, i < k → retriedOutcome (oracle i)) →
      renderWithCloudflareM oracle
        = { result := none, attempts := k + 1, delays := List.take k [2000, 4000] }) ∧
    (∀ (oracle : Nat → FetchOutcome) (k : Nat) (n m : String), oracle k = .thrown n m →
      isAbortErr n m = true → k ≤ maxRetries → (∀ i, i < k → retriedOutcome (oracle i)) →
      renderWithCloudflareM oracle
        = { result := none, attempts := k + 1, delays := List.take k [2000, 4000] }) := by
  refine ⟨?_, ?_, ?_, ?_, ?_⟩
  · intro oracle
    exact cfLoop_attempts_le oracle 3 0
  · intro oracle hall
    obtain ⟨s0, h0, hs0⟩ := hall 0
    obtain ⟨s1, h1, hs1⟩ := hall 1
    obtain ⟨s2, h2, hs2⟩ := hall 2
    have e2 : cfLoop oracle 1 2 = { result := none, attempts := 1, delays := [] } := by
      rw [cfLoop_succ_http oracle 0 2 s2 h2, if_neg]
      rintro ⟨-, hlt⟩
      simp only [maxRetries] at hlt
      omega
    have e1 : cfLoop oracle 2 1 = { result := none, attempts := 2, delays := [4000] } := by
      rw [cfLoop_succ_http oracle 1 1 s1 h1,
        if_pos ⟨hs1, by simp only [maxRetries]; omega⟩, e2]
      rfl
    have e0 : cfLoop oracle 3 0 = { result := none, attempts := 3, delays := [2000, 4000] } := by
      rw [cfLoop_succ_http oracle 2 0 s0 h0,
        if_pos ⟨hs0, by simp only [maxRetries]; omega⟩, e1]
      rfl
    exact e0
  · intro oracle hall
    obtain ⟨n0, m0, h0, hr0⟩ := hall 0
    obtain ⟨n1, m1, h1, hr1⟩ := hall 1
    obtain ⟨n2, m2, h2, hr2⟩ := hall 2
    have e2 : cfLoop oracle 1 2 = { result := none, attempts := 1, delays := [] } := by
      rw [cfLoop_succ_thrown oracle 0 2 n2 m2 h2, if_neg]
      rintro ⟨-, hlt⟩
      simp only [maxRetries] at hlt
      omega
    have e1 : cfLoop oracle 2 1 = { result := none, attempts := 2, delays := [4000] } := by
      rw [cfLoop_succ_thrown oracle 1 1 n1 m1 h1,
        if_pos ⟨by rw [hr1], by simp only [maxRetries]; omega⟩, e2]
      rfl
    have e0 : cfLoop oracle 3 0 = { result := none, attempts := 3, delays := [2000, 4000] } := by
      rw [cfLoop_succ_thrown oracle 2 0 n0 m0 h0,
        if_pos ⟨by rw [hr0], by simp only [maxRetries]; omega⟩, e1]
      rfl
    exact e0
  · intro oracle k s hk h400 h500 hkle hpre
    have hk2 : k ≤ 2 := hkle
    interval_cases k
    · exact cfLoop_stop_http oracle 2 0 s hk h500
    · show cfLoop oracle 3 0 = _
      rw [cfLoop_retry_step oracle 2 0 (by decide) (hpre 0 (by omega)),
        cfLoop_stop_http oracle 1 1 s hk h500]
      rfl
    · show cfLoop oracle 3 0 = _
      rw [cfLoop_retry_step oracle 2 0 (by decide) (hpre 0 (by omega)),
        cfLoop_retry_step oracle 1 1 (by decide) (hpre 1 (by omega)),
        cfLoop_stop_http oracle 0 2 s hk h500]
      rfl
  · intro oracle k n m hk habort hkle hpre
    have hk2 : k ≤ 2 := hkle
    interval_cases k
    · exact cfLoop_stop_abort oracle 2 0 n m hk habort
    · show cfLoop oracle 3 0 = _
      rw [cfLoop_retry_step oracle 2 0 (by decide) (hpre 0 (by omega)),
        cfLoop_stop_abort oracle 1 1 n m hk habort]
      rfl
    · show cfLoop oracle 3 0 = _
      rw [cfLoop_retry_step oracle 2 0 (by decide) (hpre 0 (by omega)),
        cfLoop_retry_step oracle 1 1 (by decide) (hpre 1 (by omega)),
        cfLoop_stop_abort oracle 0 2 n m hk habort]
      rfl

/-- Witness for `cf_retry_policy`: a worker that always answers 503 is fetched
exactly 3 times with delays 2000 and 4000 ms; a 503 followed by a 404 stops
after the second fetch (the 404 is not retried) having slept only the 2000 ms
delay; a first-attempt `AbortError` is never retried. -/
theorem cf_retry_policy_witness :
    renderWithCloudflareM (fun _ => .httpError 503)
        = { result := none, attempts := 3, delays := [2000, 4000] } ∧
      renderWithCloudflareM (fun i => if i = 0 then .httpError 503 else .httpError 404)
        = { result := none, attempts := 2, delays := [2000] } ∧
      isAbortErr "AbortError" "The operation was aborted" = true ∧
      renderWithCloudflareM (fun _ => .thrown "AbortError" "The operation was aborted")
        = { result := none, attempts := 1, delays := [] } := by
  refine ⟨?_, ?_, by decide, ?_⟩
  · exact cf_retry_policy.2.1 (fun _ => .httpError 503) (fun i => ⟨503, rfl, by omega⟩)
  · exact cf_retry_policy.2.2.2.1
      (fun i => if i = 0 then .httpError 503 else .httpError 404) 1 404
      rfl (by omega) (by omega) (by decide)
      (fun i hi => by
        have hi0 : i = 0 := by omega
        subst hi0
        show (500 : Nat) ≤ 503
        omega)
  · exact cf_retry_policy.2.2.2.2 (fun _ => .thrown "AbortError" "The operation was aborted")
      0 "AbortError" "The operation was aborted" rfl (by decide) (by omega)
      (fun i hi => absurd hi (by omega))

/-! ## The Cloudflare worker call payload

`renderWithCloudflare` is called with `{url?, html?, viewport, delay?,
timeout?}` (lines 139-145); this structure records one such payload, so the
routing theorems can talk about exactly which call a renderer makes.
-/

structure CfCall where
  url : Option String
  html : Option String
  viewportW : Nat
  viewportH : Nat
  delay : Option Nat
  timeout : Option Nat
deriving DecidableEq

/-- `result.meta["K"] = v` — appending one metadata header. -/
def addMeta (p : CachedPreviewM) (k v : String) : CachedPreviewM :=
  { p with meta := p.meta ++ [(k, v)] }

/-! ## C4 — `renderSvgPreview` routing (lines 437-461) and
`renderSvgWithChrome` (lines 553-582)

Oracles: `cf` is the worker (`renderWithCloudflare`, `none` = failure);
`center` is `centerOnCanvas` (decode + resize + re-encode, lines 942-984),
which always yields a `CachedPreview`; `resvgRender` summarizes the whole
resvg-wasm path of lines 463-547 (animation stripping, dimension computation,
wrapping, `Resvg.render`).  The `engine` tag records which branch of the
`svgContent.includes("<foreignObject")` test at line 452 was taken.
-/

inductive SvgEngine
  | chromeWorker
  | resvgWasm
deriving DecidableEq

structure SvgRenderOutcome where
  result : Option CachedPreviewM
  engine : SvgEngine

/-- `renderSvgWithChrome` (lines 553-582): URL-mode worker call with a
1200×1200 viewport; on success, center on canvas and tag the metadata. -/
def renderSvgWithChromeM (cf : CfCall → Option (List Nat))
    (center : List Nat → CachedPreviewM) (stampUrl : String) : Option CachedPreviewM :=
  match cf { url := some stampUrl, html := none, viewportW := 1200, viewportH := 1200,
             delay := none, timeout := none } with
  | some buf =>
      some (addMeta (addMeta (center buf) "X-Rendering-Engine" "cloudflare-worker")
        "X-ForeignObject" "true")
  | none => none

/-- `renderSvgPreview` after the fetch of the SVG text (lines 448-547): SVGs
containing `<foreignObject` go to Chrome, everything else to resvg-wasm. -/
def renderSvgPreviewM (cf : CfCall → Option (List Nat))
    (center : List Nat → CachedPreviewM) (resvgRender : String → Option CachedPreviewM)
    (stampUrl svgContent : String) : SvgRenderOutcome :=
  if includesStr svgContent "<foreignObject" then
    { result := renderSvgWithChromeM cf center stampUrl, engine := .chromeWorker }
  else
    { result := resvgRender svgContent, engine := .resvgWasm }

/-- **C4**: an SVG whose raw content contains `<foreignObject` is never
rendered by the resvg-wasm vector rasterizer; it is always routed to the
full-browser (Cloudflare worker) path. -/
theorem svg_foreignobject_routing (cf : CfCall → Option (List Nat))
    (center : List Nat → CachedPreviewM) (resvgRender : String → Option CachedPreviewM)
    (stampUrl svgContent : String)
    (h : includesStr svgContent "<foreignObject" = true) :
    (renderSvgPreviewM cf center resvgRender stampUrl svgContent).engine = .chromeWorker ∧
      (renderSvgPreviewM cf center resvgRender stampUrl svgContent).engine ≠ .resvgWasm ∧
      (renderSvgPreviewM cf center resvgRender stampUrl svgContent).result
        = renderSvgWithChromeM cf center stampUrl := by
  rw [renderSvgPreviewM, if_pos h]
  exact ⟨rfl, by simp, rfl⟩

/-- Witness for `svg_foreignobject_routing` on a concrete foreignObject SVG
(worker oracle failing, resvg oracle succeeding — the routing ignores both). -/
theorem svg_foreignobject_routing_witness :
    includesStr "<svg xmlns=MW><foreignObject>txt</foreignObject></svg>" "<foreignObject" = true ∧
      (renderSvgPreviewM (fun _ => none) (fun b => { png := b, meta := [] })
          (fun _ => some { png := [1], meta := [] }) "u"
          "<svg xmlns=MW><foreignObject>txt</foreignObject></svg>").engine
        = SvgEngine.chromeWorker :=
  ⟨by decide,
    (svg_foreignobject_routing (fun _ => none) (fun b => { png := b, meta := [] })
      (fun _ => some { png := [1], meta := [] }) "u"
      "<svg xmlns=MW><foreignObject>txt</foreignObject></svg>" (by decide)).1⟩

/-! ## C5 — `renderAudioPreview` (lines 800-893): the procedural waveform

The generator is a pure function of the stamp URL: a seed is hashed from the
URL's characters (lines 811-814), a linear-congruential generator steps that
seed (lines 815-818), and the drawing uses only the bar index and the rng
outputs.  JS numeric semantics is modelled exactly: `| 0` and `& 0x7fffffff`
wrap through 32 bits, and the products/sums of the LCG (which exceed 2^53) go
through IEEE-754 double rounding, `roundFloat`.

The one float expression that cannot be represented in integers is the bar
height `Math.floor(maxBarHeight * (Math.sin(t*π)*0.7+0.3) * (0.3+v/1000))`
(lines 834-837); it depends only on the bar index `i` and the rng draw `v`,
and is abstracted as a parameter `barH : Nat → Nat → Nat` — the theorem holds
for every such function, hence for the real sine-based one.  The integer
constants that JS computes in floats (`barWidth`, `maxBarHeight`, `centerY`,
the triangle half-width) evaluate exactly to their integer-arithmetic
counterparts in float64 (checked exhaustively), and are written as such.
-/

/-- JS `ToInt32` (`x | 0`): wrap an integer to signed 32-bit. -/
def wrap32 (n : Int) : Int := (n + 2 ^ 31) % 2 ^ 32 - 2 ^ 31

/-- Round an integer to the nearest IEEE-754 double (53-bit significand, ties
to even) — what JS arithmetic yields on integer operands beyond 2^53. -/
def roundFloat (n : Int) : Int :=
  let a := n.natAbs
  if a < 2 ^ 53 then n
  else
    let e := Nat.log2 a - 52
    let q := a / 2 ^ e
    let r := a % 2 ^ e
    let half := 2 ^ (e - 1)
    let q2 := if half < r then q + 1 else if r < half then q
      else if q % 2 = 0 then q else q + 1
    (if n < 0 then -1 else 1) * (q2 * 2 ^ e)

/-- One step of the seed hash (line 813):
`seed = ((seed << 5) - seed + charCode) | 0` (intermediates stay below 2^53,
so only the shift and the final `| 0` wrap). -/
def audioSeedStep (seed : Int) (c : Nat) : Int :=
  wrap32 (wrap32 (seed * 32) - seed + c)

/-- Lines 811-814: the deterministic seed derived from the URL's characters. -/
def audioSeed (url : String) : Int :=
  url.toList.foldl (fun s c => audioSeedStep s c.toNat) 0

/-- Line 816: `seed = (seed * 1103515245 + 12345) & 0x7fffffff`, with float
rounding of the product and the sum, `ToInt32`, and masking of bit 31. -/
def rngNext (seed : Int) : Nat :=
  ((roundFloat (roundFloat (seed * 1103515245) + 12345) % 2 ^ 32).toNat) % 2 ^ 31

/-- `rng(n)` (lines 815-818): returns `seed % n` and the updated seed. -/
def rng (seed : Int) (n : Nat) : Nat × Int :=
  (rngNext seed % n, (rngNext seed : Int))

/-- `barCount` (line 821). -/
def barCount : Nat := 64

/-- `barWidth = Math.floor(targetSize * 0.7 / barCount)` (line 822); the float
expression evaluates to exactly `1200 * 7 / 10 / 64 = 13`. -/
def barWidth : Nat := 1200 * 7 / 10 / 64

/-- `gap` (line 823). -/
def barGap : Nat := 2

/-- `totalWidth` (line 824). -/
def audioTotalWidth : Nat := barCount * (barWidth + barGap)

/-- `startX` (line 825). -/
def audioStartX : Nat := (1200 - audioTotalWidth) / 2

/-- `centerY = Math.floor(1200 * 0.50)` (line 826). -/
def audioCenterY : Nat := 600

/-- `maxBarHeight = Math.floor(1200 * 0.30)`, exactly 360 (line 827). -/
def maxBarHeight : Nat := 360

/-- The warm 4-color palette (line 830). -/
def colorsList : List Nat := [0xf59e0bff, 0xf97316ff, 0xef4444ff, 0xec4899ff]

/-- One waveform bar (lines 832-852): draw `rng` for the height variation,
then for the color, then paint the symmetric bar.  The JS loop
`for (dy = -barHeight; dy <= barHeight; dy++)` is indexed here by
`dyIdx = dy + barHeight`. -/
def drawBar (barH : Nat → Nat → Nat) (st : Img × Int) (i : Nat) : Img × Int :=
  let variation := (rng st.2 700).1
  let seed1 := (rng st.2 700).2
  let barHeight := barH i variation
  let x := audioStartX + i * (barWidth + barGap)
  let colorIdx := (rng seed1 colorsList.length).1
  let seed2 := (rng seed1 colorsList.length).2
  let color := colorsList.getD colorIdx 0
  let img2 := forLoop (2 * barHeight + 1) (fun dyIdx img =>
    let py : Int := (audioCenterY : Int) + dyIdx - barHeight
    if py < 1 ∨ py > 1200 then img
    else forLoop barWidth (fun dx img =>
      let px := x + dx
      if px < 1 ∨ px > 1200 then img
      else img.setPixelAt px py.toNat color) img) st.1
  (img2, seed2)

/-- The 64-bar loop, threading the rng seed. -/
def barsLoop (barH : Nat → Nat → Nat) (img : Img) (seed : Int) : Img × Int :=
  (List.range barCount).foldl (drawBar barH) (img, seed)

/-- The translucent play-button circle (lines 855-868):
`for (dy = -60; dy <= 60) for (dx = -60; dx <= 60)`, painting where
`dx² + dy² ≤ 60²`. -/
def circleLoop (img : Img) : Img :=
  forLoop 121 (fun dyIdx img =>
    forLoop 121 (fun dxIdx img =>
      let dx : Int := (dxIdx : Int) - 60
      let dy : Int := (dyIdx : Int) - 60
      if dx * dx + dy * dy ≤ 60 * 60 then
        let px := (600 : Int) + dx
        let py := (600 : Int) + dy
        if 1 ≤ px ∧ px ≤ 1200 ∧ 1 ≤ py ∧ py ≤ 1200 then
          img.setPixelAt px.toNat py.toNat 0x14001fcc
        else img
      else img) img) img

/-- The white play triangle (lines 870-880): rows `-30 .. 30`; the float
half-width `Math.floor(((row+30)/60)*30)` equals `(row+30)*30/60` for every
row; columns run from `-5` to `halfWidth - 1`. -/
def triangleLoop (img : Img) : Img :=
  forLoop 61 (fun rowIdx img =>
    let row : Int := (rowIdx : Int) - 30
    let halfWidth : Int := (row + 30) * 30 / 60
    forLoop (halfWidth + 5).toNat (fun colIdx img =>
      let col : Int := (colIdx : Int) - 5
      let px := (600 : Int) + col + 8
      let py := (600 : Int) + row
      if 1 ≤ px ∧ px ≤ 1200 ∧ 1 ≤ py ∧ py ≤ 1200 then
        img.setPixelAt px.toNat py.toNat 0xffffffff
      else img) img) img

/-- `renderAudioPreview`'s image (lines 805-880): dark-purple 1200×1200
canvas, seeded bars, circle, triangle.  The PNG encoding of line 882 is a pure
function of this canvas. -/
def renderAudioImage (barH : Nat → Nat → Nat) (url : String) : Img :=
  let img0 := (Img.new 1200 1200).fill 0x14001fff
  let seed0 := audioSeed url
  triangleLoop (circleLoop (barsLoop barH img0 seed0).1)

/-- **C5**: the audio visualizer is deterministic — its output depends on the
stamp URL only through the character-derived seed (no wall clock, no external
randomness): any two URLs with equal seeds give the identical canvas, hence
byte-identical PNGs under any (deterministic) encoder; in particular repeated
calls on the same identifier are byte-identical.  Quantifying over `barH`
covers the sine-based float bar-height computation. -/
theorem audio_visualizer_deterministic (barH : Nat → Nat → Nat)
    (pngEncode : Img → List Nat) (u1 u2 : String)
    (h : audioSeed u1 = audioSeed u2) :
    renderAudioImage barH u1 = renderAudioImage barH u2 ∧
      pngEncode (renderAudioImage barH u1) = pngEncode (renderAudioImage barH u2) := by
  have himg : renderAudioImage barH u1 = renderAudioImage barH u2 := by
    rw [renderAudioImage, renderAudioImage, h]
  exact ⟨himg, congrArg pngEncode himg⟩

/-- Witness for `audio_visualizer_deterministic`: the distinct URLs `"aa"` and
`"bB"` hash to the same seed (31·97+97 = 31·98+66 = 3104), so their canvases
coincide. -/
theorem audio_visualizer_deterministic_witness :
    audioSeed "aa" = audioSeed "bB" ∧
      renderAudioImage (fun _ _ => 0) "aa" = renderAudioImage (fun _ _ => 0) "bB" :=
  ⟨by decide,
    (audio_visualizer_deterministic (fun _ _ => 0) (fun _ => []) "aa" "bB" (by decide)).1⟩

/-! ## C6/C8 — `renderHtmlPreview` classification and first worker call
(lines 584-698)

The content classification (lines 611-642), the content-URL construction
(lines 646-652), the simple-iframe target extraction (lines 660-674) and the
choice between URL-mode and inline-mode rendering (lines 676-698) are all pure
string computation; `htmlFirstCall` reproduces them and returns the payload of
the **first** `renderWithCloudflare` call the function makes.
`cleanHtmlForRendering` lives outside this source drop and is passed as the
oracle `clean` (it only affects the `html` field of the inline-mode call).
-/

/-- JS `\s` (ECMA-262 WhiteSpace ∪ LineTerminator). -/
def jsSpace (c : Char) : Bool :=
  c.toNat == 9 || c.toNat == 10 || c.toNat == 11 || c.toNat == 12 || c.toNat == 13 ||
    c.toNat == 32 || c.toNat == 0xa0 || c.toNat == 0x1680 ||
    (decide (0x2000 ≤ c.toNat) && decide (c.toNat ≤ 0x200a)) ||
    c.toNat == 0x2028 || c.toNat == 0x2029 || c.toNat == 0x202f ||
    c.toNat == 0x205f || c.toNat == 0x3000 || c.toNat == 0xfeff

/-- `["']`: a double (34) or single (39) quote. -/
def isQuote (c : Char) : Bool := c.toNat == 34 || c.toNat == 39

/-- `/src\s*=\s*["']\//` anchored at the head of the list. -/
def srcSlashAt : List Char → Bool
  | 's' :: 'r' :: 'c' :: rest =>
    (match (rest.dropWhile jsSpace) with
     | '=' :: r2 =>
       (match (r2.dropWhile jsSpace) with
        | q :: '/' :: _ => isQuote q
        | _ => false)
     | _ => false)
  | _ => false

/-- `hasRelativeScriptSrc` (line 617): `/src\s*=\s*["']\//.test(rawHtml)`. -/
def srcSlashSearch : List Char → Bool
  | [] => false
  | l@(_ :: t) => srcSlashAt l || srcSlashSearch t

/-- `/["']A\d{10,}["']/` anchored at the head of the list. -/
def cpidAt : List Char → Bool
  | q :: 'A' :: rest =>
    isQuote q &&
      (let run := rest.takeWhile Char.isDigit
       decide (10 ≤ run.length) &&
         (match rest.drop run.length with
          | q2 :: _ => isQuote q2
          | [] => false))
  | _ => false

def cpidSearch : List Char → Bool
  | [] => false
  | l@(_ :: t) => cpidAt l || cpidSearch t

/-- `/src\s*=\s*["']([^"']+)["']/` anchored at the head: the captured group. -/
def srcCaptureAt : List Char → Option (List Char)
  | 's' :: 'r' :: 'c' :: rest =>
    (match (rest.dropWhile jsSpace) with
     | '=' :: r2 =>
       (match (r2.dropWhile jsSpace) with
        | q :: r4 =>
          if isQuote q then
            let cap := r4.takeWhile (fun c => !isQuote c)
            if cap.isEmpty then none
            else
              (match r4.drop cap.length with
               | q2 :: _ => if isQuote q2 then some cap else none
               | [] => none)
          else none
        | [] => none)
     | _ => none)
  | _ => none

/-- `rawHtml.match(/src\s*=\s*["']([^"']+)["']/)` (lines 662-664): the first
position where the pattern matches, and its captured group. -/
def firstSrcMatch : List Char → Option (List Char)
  | [] => none
  | l@(_ :: t) =>
    match srcCaptureAt l with
    | some cap => some cap
    | none => firstSrcMatch t

/-- Line 611. -/
def hasIframeB (rawHtml : String) : Bool := includesStr rawHtml "<iframe"

/-- Lines 612-614. -/
def hasExternalRefB (rawHtml : String) : Bool :=
  includesStr rawHtml "ordinals.com/" || includesStr rawHtml "arweave.net/" ||
    includesStr rawHtml "github.io/"

/-- Line 617. -/
def hasRelativeScriptSrcB (rawHtml : String) : Bool := srcSlashSearch rawHtml.toList

/-- Lines 618-619: `/["']\/s\//` (quote-slash-s-slash) or `/["']A\d{10,}["']/`. -/
def hasStampContentRefB (rawHtml : String) : Bool :=
  subOccurs ('"' :: "/s/".toList) rawHtml.toList ||
    subOccurs (Char.ofNat 39 :: "/s/".toList) rawHtml.toList ||
    cpidSearch rawHtml.toList

/-- Lines 620-621. -/
def isRecursiveB (rawHtml : String) : Bool :=
  hasIframeB rawHtml || hasExternalRefB rawHtml || hasRelativeScriptSrcB rawHtml ||
    hasStampContentRefB rawHtml

/-- Lines 627-628. -/
def hasCanvasB (rawHtml : String) : Bool :=
  includesStr rawHtml "<canvas" || includesStr rawHtml "getContext"

/-- Lines 629-631. -/
def hasAnimationIndicatorB (rawHtml : String) : Bool :=
  includesStr rawHtml "requestAnimationFrame" || includesStr rawHtml "@keyframes" ||
    includesStr rawHtml "setInterval"

/-- Lines 632-634. -/
def hasAsyncLoadB (rawHtml : String) : Bool :=
  includesStr rawHtml "async" || includesStr rawHtml "await" || includesStr rawHtml ".then("

/-- Lines 635-637. -/
def isSimpleIframeB (rawHtml : String) : Bool :=
  hasIframeB rawHtml && !hasCanvasB rawHtml && !hasAnimationIndicatorB rawHtml &&
    !hasAsyncLoadB rawHtml && decide (rawHtml.length < 500)

/-- Lines 638-641. -/
def isComplexB (rawHtml stampUrl : String) : Bool :=
  (isRecursiveB rawHtml && !isSimpleIframeB rawHtml) ||
    includesStr stampUrl "recursive" || includesStr stampUrl "fractal" ||
    hasCanvasB rawHtml

/-- One step of `String.prototype.split(sep)`: the suffix after the first
occurrence of `sep`, if any. -/
def findSepSplit (sep : List Char) : List Char → Option (List Char)
  | [] => none
  | l@(_ :: t) => if sep.isPrefixOf l then some (l.drop sep.length) else findSepSplit sep t

def lastPartAux (sep : List Char) : Nat → List Char → List Char
  | 0, l => l
  | fuel + 1, l =>
    match findSepSplit sep l with
    | none => l
    | some r => lastPartAux sep fuel r

/-- `stamp_url.split(sep).pop()`: the last split part. -/
def lastPart (sep l : List Char) : List Char := lastPartAux sep l.length l

/-- `.replace(/\.html?$/i, "")`: strip a case-insensitive `.html`/`.htm`
suffix. -/
def stripHtmlSuffix (l : List Char) : List Char :=
  let low := l.map Char.toLower
  if ".html".toList.isSuffixOf low then l.take (l.length - 5)
  else if ".htm".toList.isSuffixOf low then l.take (l.length - 4)
  else l

/-- Lines 646-652: the `/content/` URL used for URL-mode rendering (the
original URL when the extracted tx hash is empty). -/
def contentUrlOf (stampUrl : String) : String :=
  let txHash := stripHtmlSuffix (lastPart "/stamps/".toList stampUrl.toList)
  if txHash.isEmpty then stampUrl
  else String.mk ("https://stampchain.io/content/".toList ++ txHash)

/-- Lines 667-669: a root-relative iframe src resolves against the
stampchain.io origin. -/
def resolveIframeSrc (src : List Char) : String :=
  if src.head? = some '/' then String.mk ("https://stampchain.io".toList ++ src)
  else String.mk src

/-- Lines 611-698 up to (and producing the payload of) the first
`renderWithCloudflare` call: classification, delay selection, render-URL
selection, and the URL-mode / inline-mode split. -/
def htmlFirstCall (clean : String → String) (rawHtml stampUrl : String) : CfCall :=
  let delay := if isComplexB rawHtml stampUrl then 8000 else 3000
  let contentUrl := contentUrlOf stampUrl
  let renderUrl :=
    if isSimpleIframeB rawHtml then
      match firstSrcMatch rawHtml.toList with
      | some src => resolveIframeSrc src
      | none => contentUrl
    else contentUrl
  if isRecursiveB rawHtml then
    { url := some renderUrl, html := none, viewportW := 1200, viewportH := 1200,
      delay := some delay, timeout := some 45000 }
  else
    { url := none, html := some (clean rawHtml), viewportW := 1200, viewportH := 1200,
      delay := some delay, timeout := none }

/-- **C6 counterexample**: the HTML input `"<canvas"` (a canvas indicator,
nothing recursive, neutral URL) is classified complex and gets the 8000 ms
delay, but its first worker call is inline-mode with **no** 45000 ms timeout
(the field is absent, so `renderWithCloudflare` uses its 30000 ms default) —
refuting "every complex input uses a 45000 ms request timeout". -/
theorem html_complex_timeout_counterexample :
    isComplexB "<canvas" "u" = true ∧
      (htmlFirstCall (fun s => s) "<canvas" "u").delay = some 8000 ∧
      (htmlFirstCall (fun s => s) "<canvas" "u").timeout = none := by
  refine ⟨by decide, by decide, by decide⟩

/-- **C6 (amended)**: complex content always gets the 8000 ms post-load delay
and simple (non-complex) content the 3000 ms delay; the 45000 ms request
timeout is set exactly when the content is rendered in URL mode (classified
recursive) — a complex but non-recursive input is rendered inline with no
explicit timeout (30000 ms default). -/
theorem html_complex_timing (clean : String → String) (rawHtml stampUrl : String) :
    (isComplexB rawHtml stampUrl = true →
      (htmlFirstCall clean rawHtml stampUrl).delay = some 8000 ∧
        (isRecursiveB rawHtml = true →
          (htmlFirstCall clean rawHtml stampUrl).timeout = some 45000) ∧
        (isRecursiveB rawHtml = false →
          (htmlFirstCall clean rawHtml stampUrl).timeout = none)) ∧
    (isComplexB rawHtml stampUrl = false →
      (htmlFirstCall clean rawHtml stampUrl).delay = some 3000) := by
  constructor
  · intro hc
    cases hr : isRecursiveB rawHtml <;> simp [htmlFirstCall, hc, hr]
  · intro hc
    cases hr : isRecursiveB rawHtml <;> simp [htmlFirstCall, hc, hr]

/-- Witness for `html_complex_timing`: a recursive+canvas input is complex and
gets delay 8000 with timeout 45000; a plain static input is simple and gets
delay 3000. -/
theorem html_complex_timing_witness :
    isComplexB "<iframe src=MN<canvas" "u" = true ∧
      (htmlFirstCall (fun s => s) "<iframe src=MN<canvas" "u").delay = some 8000 ∧
      isComplexB "<p>hi</p>" "u" = false ∧
      (htmlFirstCall (fun s => s) "<p>hi</p>" "u").delay = some 3000 := by
  refine ⟨by decide, ?_, by decide, ?_⟩
  · exact ((html_complex_timing (fun s => s) "<iframe src=MN<canvas" "u").1 (by decide)).1
  · exact (html_complex_timing (fun s => s) "<p>hi</p>" "u").2 (by decide)

/-- **C8 counterexample**: the original claim fails on inputs it covers, in
two ways.  (i) The simple-iframe wrapper of `/s/abc` with a stamp URL
containing `"fractal"` is still classified "simple iframe", but the
complexity heuristic also consults the URL (lines 639-640), so the post-load
delay is 8000 ms, not the claimed 3000 ms.  (ii) With an
`<img src="/img/x.png">` preceding the iframe, the extraction at line 662
takes the document's **first** `src=` match, so the browser is navigated to
`/img/x.png`, not the iframe's `/s/abc`. -/
theorem simple_iframe_claim_counterexample :
    (isSimpleIframeB "<html><body><iframe src=\"/s/abc\"></iframe></body></html>" = true ∧
      (htmlFirstCall (fun s => s)
          "<html><body><iframe src=\"/s/abc\"></iframe></body></html>"
          "fractal").delay = some 8000) ∧
    (isSimpleIframeB "<img src=\"/img/x.png\"><iframe src=\"/s/abc\"></iframe>" = true ∧
      (htmlFirstCall (fun s => s)
          "<img src=\"/img/x.png\"><iframe src=\"/s/abc\"></iframe>" "u").url
        = some "https://stampchain.io/img/x.png" ∧
      (htmlFirstCall (fun s => s)
          "<img src=\"/img/x.png\"><iframe src=\"/s/abc\"></iframe>" "u").url
        ≠ some "https://stampchain.io/s/abc") := by
  exact ⟨⟨by decide, by decide⟩, by decide, by decide, by decide⟩

/-- **C8 (amended)**: an HTML input under 500 code units containing an
`<iframe` and no canvas/animation/async indicators is classified "simple
iframe" and the first worker call is URL-mode (the wrapper document is not
rendered) with the 45000 ms timeout; it navigates to the document's first
`src=` attribute value — the iframe's src when that is the document's first
`src=` — resolved against `https://stampchain.io` when root-relative (and to
the `/content/` URL when no `src=` matches); the post-load delay is 3000 ms
unless the stamp URL itself contains `"recursive"` or `"fractal"`, in which
case it is 8000 ms. -/
theorem simple_iframe_first_call_spec (clean : String → String)
    (rawHtml stampUrl : String)
    (hif : hasIframeB rawHtml = true)
    (hcv : hasCanvasB rawHtml = false)
    (han : hasAnimationIndicatorB rawHtml = false)
    (has : hasAsyncLoadB rawHtml = false)
    (hlen : rawHtml.length < 500) :
    isSimpleIframeB rawHtml = true ∧
      htmlFirstCall clean rawHtml stampUrl =
        { url := some (match firstSrcMatch rawHtml.toList with
                       | some src => resolveIframeSrc src
                       | none => contentUrlOf stampUrl),
          html := none, viewportW := 1200, viewportH := 1200,
          delay := some (if includesStr stampUrl "recursive" || includesStr stampUrl "fractal"
                         then 8000 else 3000),
          timeout := some 45000 } := by
  have hsimple : isSimpleIframeB rawHtml = true := by
    rw [isSimpleIframeB, hif, hcv, han, has]
    simp [hlen]
  have hrec : isRecursiveB rawHtml = true := by
    rw [isRecursiveB, hif]
    simp
  have hcx : isComplexB rawHtml stampUrl
      = (includesStr stampUrl "recursive" || includesStr stampUrl "fractal") := by
    rw [isComplexB, hrec, hsimple, hcv]
    simp
  refine ⟨hsimple, ?_⟩
  rw [htmlFirstCall, hcx]
  simp only [hrec, hsimple, ite_true, if_true]

/-- Witness for `simple_iframe_first_call_spec`: the 57-unit iframe wrapper
of `/s/abc` (whose only `src=` is the iframe's) with a hash-based stamp URL
is navigated to `https://stampchain.io/s/abc` with delay 3000 and timeout
45000. -/
theorem simple_iframe_first_call_spec_witness :
    isSimpleIframeB "<html><body><iframe src=\"/s/abc\"></iframe></body></html>" = true ∧
      htmlFirstCall (fun s => s)
          "<html><body><iframe src=\"/s/abc\"></iframe></body></html>"
          "https://stampchain.io/stamps/abc123.html" =
        { url := some (String.mk ("https://stampchain.io".toList ++ "/s/abc".toList)),
          html := none, viewportW := 1200, viewportH := 1200,
          delay := some 3000, timeout := some 45000 } := by
  have h := simple_iframe_first_call_spec (fun s => s)
    "<html><body><iframe src=\"/s/abc\"></iframe></body></html>"
    "https://stampchain.io/stamps/abc123.html"
    (by decide) (by decide) (by decide) (by decide) (by decide)
  refine ⟨h.1, ?_⟩
  rw [h.2]
  decide

/-! ## C7 — `renderPreview` raster dispatch (lines 288-340) and
`renderImageWithChrome` (lines 754-793)

`renderRasterPreview`'s outcome (fetch + decode + upscale, `null` on fetch or
decode failure) is the oracle `rasterResult`; the worker and `centerOnCanvas`
are the oracles `cf` and `center` as before; the non-raster branches are
summarized by result oracles, since only the raster branch is at issue.
-/

/-- Prefix of the centering template of lines 761-767, up to the interpolated
URL (`{`/`}` written as `\x7b`/`\x7d`). -/
def imgHtmlPre : String :=
  "<!DOCTYPE html>\n<html><head><style>\n  * \x7b margin: 0; padding: 0; \x7d\n  body \x7b background: transparent; display: flex; align-items: center; justify-content: center; width: 1200px; height: 1200px; overflow: hidden; \x7d\n  img \x7b max-width: 100%; max-height: 100%; object-fit: contain; image-rendering: pixelated; \x7d\n</style></head><body>\n<img src=\""

/-- Suffix of the centering template (line 767-768). -/
def imgHtmlPost : String := "\" />\n</body></html>"

/-- The centering HTML wrapper around the raw content URL (lines 761-768). -/
def imageHtml (stampUrl : String) : String := imgHtmlPre ++ stampUrl ++ imgHtmlPost

/-- The worker payload of `renderImageWithChrome` (lines 770-774): inline
HTML, 1200×1200 viewport, 2000 ms delay, no explicit timeout. -/
def imageChromeCall (stampUrl : String) : CfCall :=
  { url := none, html := some (imageHtml stampUrl), viewportW := 1200,
    viewportH := 1200, delay := some 2000, timeout := none }

/-- `renderImageWithChrome` (lines 754-793). -/
def renderImageWithChromeM (cf : CfCall → Option (List Nat))
    (center : List Nat → CachedPreviewM) (stampUrl : String) : Option CachedPreviewM :=
  match cf (imageChromeCall stampUrl) with
  | some buf => some (addMeta (center buf) "X-Rendering-Engine" "cloudflare-worker")
  | none => none

/-- `renderPreview`'s dispatch (lines 288-340). `stampData` is the resolved
`(stamp_url, stamp_mimetype)` (absent models `!stampData?.stamp_url`). -/
def renderPreviewM (stampData : Option (String × Option String))
    (rasterResult : Option CachedPreviewM)
    (cf : CfCall → Option (List Nat)) (center : List Nat → CachedPreviewM)
    (svgResult htmlResult audioResult videoResult : Option CachedPreviewM) :
    Option CachedPreviewM :=
  match stampData with
  | none => none
  | some (stampUrl, mt) =>
    if stampUrl.isEmpty then none
    else if optStartsWith mt "image/" ∧ mt ≠ some "image/svg+xml" then
      match rasterResult with
      | some r => some r
      | none => renderImageWithChromeM cf center stampUrl
    else if mt = some "image/svg+xml" then svgResult
    else if mt = some "text/html" then htmlResult
    else if optStartsWith mt "audio/" then audioResult
    else if optStartsWith mt "video/" then videoResult
    else none

/-- **C7**: when the pixel decoder fails on a raster-typed input
(`rasterResult = none` for a mimetype starting `image/`, not SVG), the
orchestrator does not fail outright: it falls through to the full-browser
call whose payload wraps the raw content URL in the centering HTML template,
succeeds whenever that call succeeds, and fails overall exactly when that
call fails. -/
theorem raster_decode_failure_fallback (stampUrl : String) (mt : Option String)
    (cf : CfCall → Option (List Nat)) (center : List Nat → CachedPreviewM)
    (svgResult htmlResult audioResult videoResult : Option CachedPreviewM)
    (hurl : stampUrl.isEmpty = false)
    (h1 : optStartsWith mt "image/" = true)
    (h2 : mt ≠ some "image/svg+xml") :
    renderPreviewM (some (stampUrl, mt)) none cf center svgResult htmlResult
          audioResult videoResult
        = renderImageWithChromeM cf center stampUrl ∧
      (∀ buf, cf (imageChromeCall stampUrl) = some buf →
        renderPreviewM (some (stampUrl, mt)) none cf center svgResult htmlResult
            audioResult videoResult
          = some (addMeta (center buf) "X-Rendering-Engine" "cloudflare-worker")) ∧
      (renderPreviewM (some (stampUrl, mt)) none cf center svgResult htmlResult
            audioResult videoResult = none
        ↔ cf (imageChromeCall stampUrl) = none) ∧
      (imageChromeCall stampUrl).html = some (imgHtmlPre ++ stampUrl ++ imgHtmlPost) := by
  have hdisp : renderPreviewM (some (stampUrl, mt)) none cf center svgResult htmlResult
      audioResult videoResult = renderImageWithChromeM cf center stampUrl := by
    rw [renderPreviewM]
    rw [if_neg (by rw [hurl]; exact Bool.false_ne_true), if_pos ⟨h1, h2⟩]
  refine ⟨hdisp, ?_, ?_, rfl⟩
  · intro buf hbuf
    rw [hdisp, renderImageWithChromeM, hbuf]
  · rw [hdisp, renderImageWithChromeM]
    cases hcf : cf (imageChromeCall stampUrl) with
    | none => simp
    | some buf => simp

/-- Witness for `raster_decode_failure_fallback`: a WebP stamp whose decode
failed, with a worker oracle that also fails — the overall render fails, and
the attempted call wrapped the URL in the centering template. -/
theorem raster_decode_failure_fallback_witness :
    ((("u" : String).isEmpty = false ∧
        optStartsWith (some "image/webp") "image/" = true ∧
        some "image/webp" ≠ some "image/svg+xml") ∧
      (renderPreviewM (some ("u", some "image/webp")) none (fun _ => none)
          (fun b => { png := b, meta := [] }) none none none none = none
        ↔ (fun _ : CfCall => (none : Option (List Nat))) (imageChromeCall "u") = none)) :=
  ⟨⟨by decide, by decide, by decide⟩,
    (raster_decode_failure_fallback "u" (some "image/webp") (fun _ => none)
      (fun b => { png := b, meta := [] }) none none none none
      (by decide) (by decide) (by decide)).2.2.1⟩

end StampPreview
